import Mathlib

/-!
Verification development for the Cart Check WhatsApp bot (backend/main.py).

The Python source is shallowly embedded: pure functions become Lean
functions, the per-user conversation state (the `user_profiles` and
`user_states` maps, viewed at a single key) is passed explicitly, and the
network calls (WhatsApp send, media download, model invocation) are cut at
their boundary: a handler's outbound messages are collected in a list and
the model call is represented by its status code, raw text and an abstract
`loads` parameter standing for `json.loads`.

Python string operations are re-implemented structurally on `List Char`
(ASCII-faithful) so that every definition evaluates inside the kernel.
-/

/-! ### Python string primitives (ASCII-faithful, structurally recursive) -/

/-- Python `str.lower()` (ASCII). -/
def pyLower (s : String) : String :=
  String.mk (s.toList.map Char.toLower)

/-- Python `str.strip()`: drop leading and trailing whitespace. -/
def pyStrip (s : String) : String :=
  String.mk (((s.toList.dropWhile Char.isWhitespace).reverse.dropWhile
    Char.isWhitespace).reverse)

/-- Helper for Python `str.split()` with no argument: split on whitespace
runs, producing no empty pieces.  `acc` is the current token, reversed. -/
def splitWsAux : List Char → List Char → List (List Char)
  | [], acc => if acc = [] then [] else [acc.reverse]
  | c :: rest, acc =>
    if c.isWhitespace then
      if acc = [] then splitWsAux rest []
      else acc.reverse :: splitWsAux rest []
    else splitWsAux rest (c :: acc)

/-- Python `str.split()` (no separator argument). -/
def pySplitWhitespace (s : String) : List String :=
  (splitWsAux s.toList []).map String.mk

/-- Python `str.isdigit()` (ASCII digits): non-empty and all digits. -/
def pyIsDigit (s : String) : Bool :=
  match s.toList with
  | [] => false
  | l => l.all Char.isDigit

/-- Helper for splitting a string at every occurrence of one character,
keeping empty pieces (the semantics of splitting text into lines). -/
def splitOnCharAux (sep : Char) : List Char → List Char → List (List Char)
  | [], acc => [acc.reverse]
  | c :: rest, acc =>
    if c = sep then acc.reverse :: splitOnCharAux sep rest []
    else splitOnCharAux sep rest (c :: acc)

/-- Split a message into its lines (separator: the newline character). -/
def split_lines (s : String) : List String :=
  (splitOnCharAux (Char.ofNat 10) s.toList []).map String.mk

/-- Python `str.find(c)` for a single character: index of the first
occurrence, `-1` if absent. -/
def pyFindChar : List Char → Char → Int
  | [], _ => -1
  | a :: rest, c =>
    if a = c then 0
    else
      let r := pyFindChar rest c
      if r = -1 then -1 else r + 1

/-- Python `str.rfind(c)` for a single character: index of the last
occurrence, `-1` if absent. -/
def pyRfindChar (l : List Char) (c : Char) : Int :=
  let r := pyFindChar l.reverse c
  if r = -1 then -1 else (l.length : Int) - 1 - r

/-- Python slice `l[a:b]` semantics on a character list: negative indices
count from the end, then both bounds are clamped to `[0, len]`. -/
def pySliceChars (l : List Char) (a b : Int) : List Char :=
  let n : Int := l.length
  let a' : Int := if a < 0 then max (a + n) 0 else min a n
  let b' : Int := if b < 0 then max (b + n) 0 else min b n
  (l.take b'.toNat).drop a'.toNat

/-- Python `'x' * n` for a character: `n` copies, empty when `n ≤ 0`. -/
def pyRepeatChar (c : Char) (n : Int) : String :=
  String.mk (List.replicate n.toNat c)

/-- Number of occurrences of a character in a string. -/
def countChar (s : String) (c : Char) : Nat :=
  s.toList.count c

/-! ### Data model: user profiles and conversation state -/

/-- `UserProfile` (source lines 39-46): per-user record with defaults
`health_goals = []`, `restrictions = []`, `cart_checks = 0`,
`items_swapped = 0`. -/
structure UserProfile where
  phone : String
  name : Option String := none
  health_goals : List String := []
  restrictions : List String := []
  created_at : String := ""
  cart_checks : Nat := 0
  items_swapped : Nat := 0
deriving DecidableEq, Repr

/-- `is_profile_complete` (source lines 54-55):
`len(profile.health_goals) > 0 and len(profile.restrictions) > 0`. -/
def is_profile_complete (profile : UserProfile) : Bool :=
  decide (0 < profile.health_goals.length ∧ 0 < profile.restrictions.length)

/-- Conversation states (source `user_states` string tags); `new` stands
for "no entry in the map" (the map lookup defaults to `"new"`). -/
inductive UserState where
  | new
  | awaiting_goals
  | awaiting_restrictions
  | ready
deriving DecidableEq, Repr

/-! ### Catalogs (source lines 61-79) -/

/-- `HEALTH_GOALS` dictionary (source lines 61-68). -/
def HEALTH_GOALS : List (String × String) :=
  [("1", "Lower cholesterol"),
   ("2", "Lose weight"),
   ("3", "Manage diabetes"),
   ("4", "Lower blood pressure"),
   ("5", "Improve heart health"),
   ("6", "General wellness")]

/-- `RESTRICTIONS` dictionary (source lines 70-79). -/
def RESTRICTIONS : List (String × String) :=
  [("1", "No salt"),
   ("2", "No oil"),
   ("3", "No sugar"),
   ("4", "No nuts"),
   ("5", "No dairy"),
   ("6", "No gluten"),
   ("7", "No meat"),
   ("8", "No eggs")]

/-- Dictionary lookup `catalog[n]` as an option (`n in catalog` guard). -/
def catalogLookup (catalog : List (String × String)) (n : String) :
    Option String :=
  (catalog.find? (fun kv => kv.1 = n)).map (fun kv => kv.2)

/-- Number-selection parsing, the two identical lines of
`handle_goals_response` (source 383-384) and
`handle_restrictions_response` (source 419-420):
`numbers = [n.strip() for n in message.replace(",", " ").split() if n.strip().isdigit()]`
`selected = [CATALOG[n] for n in numbers if n in CATALOG]`. -/
def parse_selection (catalog : List (String × String)) (message : String) :
    List String :=
  let replaced := message.toList.map (fun c => if c = ',' then ' ' else c)
  let tokens := (splitWsAux replaced []).map String.mk
  let numbers :=
    (tokens.filter (fun n => pyIsDigit (pyStrip n))).map pyStrip
  numbers.filterMap (fun n => catalogLookup catalog n)

/-! ### Outbound message texts (verbatim from the source f-strings) -/

/-- `welcome_msg` of `handle_new_user` (source lines 360-374). -/
def welcome_msg (name : String) : String :=
  "👋 *Welcome to Cart Check, " ++ name ++ "!*\n\nI help you make healthier grocery choices by checking your cart before checkout.\n\nLet\x27s set up your profile (takes 30 seconds):\n\n*What are your health goals?*\nReply with the numbers (e.g., \"1, 2\"):\n\n1️⃣ Lower cholesterol\n2️⃣ Lose weight\n3️⃣ Manage diabetes\n4️⃣ Lower blood pressure\n5️⃣ Improve heart health\n6️⃣ General wellness"

/-- Re-prompt of `handle_goals_response` (source line 387). -/
def goals_reprompt : String :=
  "Please reply with numbers (e.g., \x271, 2\x27) to select your health goals."

/-- `restrictions_msg` of `handle_goals_response` (source lines 394-408). -/
def restrictions_menu (selected_goals : List String) : String :=
  "Great! You selected: " ++ String.intercalate ", " selected_goals ++ "\n\n*Now, any foods you need to avoid?*\nReply with numbers (e.g., \"1, 2, 3\"):\n\n1️⃣ No salt\n2️⃣ No oil\n3️⃣ No sugar\n4️⃣ No nuts\n5️⃣ No dairy\n6️⃣ No gluten\n7️⃣ No meat\n8️⃣ No eggs\n\nOr reply \"none\" if no restrictions."

/-- `ready_msg` of `handle_restrictions_response` (source lines 426-443). -/
def ready_msg (health_goals selected_restrictions : List String) : String :=
  let restrictions_text :=
    if selected_restrictions = [] then "None"
    else String.intercalate ", " selected_restrictions
  "✅ *You\x27re all set!*\n\n*Your Profile:*\n📎 Goals: " ++ String.intercalate ", " health_goals ++ "\n🚫 Avoid: " ++ restrictions_text ++ "\n\n━━━━━━━━━━━━━━━━━\n\n*How to use Cart Check:*\n📸 Take a photo of your grocery cart\n📤 Send it to me\n📋 Get instant health feedback + swap suggestions\n\nNext time you\x27re at the store, just send me a cart photo!\n\n🛒 Happy healthy shopping! 💚"

/-- Profile-setup prompt of `handle_cart_photo` (source line 452). -/
def cart_photo_setup_prompt : String :=
  "Let\x27s set up your profile first! What are your health goals?\n\nReply with numbers:\n1. Lower cholesterol\n2. Lose weight\n3. Manage diabetes\n4. Lower blood pressure\n5. Improve heart health\n6. General wellness"

/-- Acknowledgment of `handle_cart_photo` (source line 457). -/
def analyzing_msg : String :=
  "🔍 Analyzing your cart... This takes about 10 seconds."

/-- `help_msg` of `handle_text_message` (source lines 497-509). -/
def help_msg : String :=
  "*Cart Check Help*\n\n📸 *Check your cart:* Send a photo of your grocery cart\n\n🔄 *Update profile:* Type \"reset\" to start over\n\n📊 *Your stats:* Type \"stats\" to see your progress\n\n💬 *Commands:*\n• \"reset\" - Start fresh\n• \"stats\" - Your stats\n• \"profile\" - View your profile\n• \"help\" - This message"

/-- `stats_msg` of `handle_text_message` (source lines 514-525). -/
def stats_msg (profile : Option UserProfile) : String :=
  match profile with
  | some p =>
    "📊 *Your Cart Check Stats*\n\n🛒 Carts checked: " ++ toString p.cart_checks ++ "\n🔄 Items reconsidered: " ++ toString p.items_swapped ++ "\n📅 Member since: " ++ (if p.created_at = "" then "Today" else String.mk (p.created_at.toList.take 10)) ++ "\n\nKeep making healthy choices! 💚"
  | none =>
    "You haven\x27t set up your profile yet. Send \x27hi\x27 to get started!"

/-- `profile_msg` of `handle_text_message` (source lines 529-541). -/
def profile_view_msg (profile : Option UserProfile) : String :=
  match profile with
  | some p =>
    if is_profile_complete p then
      let restrictions_text :=
        if p.restrictions = [] then "None"
        else String.intercalate ", " p.restrictions
      "👤 *Your Profile*\n\n📎 Goals: " ++ String.intercalate ", " p.health_goals ++ "\n🚫 Avoid: " ++ restrictions_text ++ "\n\nType \"reset\" to update your profile."
    else
      "You haven\x27t completed your profile yet. Send \x27hi\x27 to get started!"
  | none =>
    "You haven\x27t completed your profile yet. Send \x27hi\x27 to get started!"

/-- Text prompt sent in the `ready` state (source line 552). -/
def ready_text_prompt : String :=
  "📸 Send me a photo of your grocery cart and I\x27ll check it for you!\n\nOr type \x27help\x27 for more options."

/-! ### Conversation handlers -/

/-- Effect of one handler invocation on a single user's slice of the
store: an optional profile upsert (`save_user_profile`), an optional
state write (`user_states[phone] = ...`), the outbound messages in order,
and whether the slow cart-analysis path was entered. -/
structure StepResult where
  profileWrite : Option UserProfile := none
  stateWrite : Option UserState := none
  messages : List String := []
  ranAnalysis : Bool := false
deriving DecidableEq, Repr

/-- `handle_new_user` (source lines 350-376): create a fresh profile
(empty goals and restrictions), set state to `awaiting_goals`, send the
welcome menu.  `now` stands for `datetime.now().isoformat()`. -/
def handle_new_user (phone name now : String) :
    UserProfile × UserState × List String :=
  ({ phone := phone, name := some name, created_at := now },
   UserState.awaiting_goals,
   [welcome_msg name])

/-- `handle_goals_response` (source lines 378-410). -/
def handle_goals_response (profile : UserProfile) (message : String) :
    StepResult :=
  let selected_goals := parse_selection HEALTH_GOALS message
  if selected_goals = [] then
    { messages := [goals_reprompt] }
  else
    { profileWrite := some { profile with health_goals := selected_goals },
      stateWrite := some UserState.awaiting_restrictions,
      messages := [restrictions_menu selected_goals] }

/-- `handle_restrictions_response` (source lines 412-445). -/
def handle_restrictions_response (profile : UserProfile)
    (message : String) : StepResult :=
  let selected_restrictions :=
    if pyStrip (pyLower message) = "none" then []
    else parse_selection RESTRICTIONS message
  { profileWrite :=
      some { profile with restrictions := selected_restrictions },
    stateWrite := some UserState.ready,
    messages :=
      [ready_msg profile.health_goals selected_restrictions] }

/-- `handle_cart_photo` (source lines 447-479), cut at the guard: when
the profile is absent or incomplete the user is re-prompted for goals and
the state forced to `awaiting_goals`; otherwise the acknowledgment is
sent and the (network-bound) analysis path is entered. -/
def handle_cart_photo (profile : Option UserProfile) : StepResult :=
  match profile with
  | none =>
    { stateWrite := some UserState.awaiting_goals,
      messages := [cart_photo_setup_prompt] }
  | some p =>
    if is_profile_complete p then
      { messages := [analyzing_msg], ranAnalysis := true }
    else
      { stateWrite := some UserState.awaiting_goals,
        messages := [cart_photo_setup_prompt] }

/-- An inbound photo event at a given per-user store configuration.  The
webhook image branch (source lines 612-615) passes only the phone and the
media id to `handle_cart_photo`; the conversation state is not consulted
anywhere on the photo path. -/
def photo_event (profile : Option UserProfile) (state : UserState) :
    StepResult :=
  handle_cart_photo profile

/-- `handle_text_message` (source lines 481-552), as a function of one
user's store slice.  Returns the profile after the event, the state after
the event and the outbound messages.  The final catch-all arm mirrors the
Python `if/elif` chain falling through with no action. -/
def handle_text_message (profile : Option UserProfile) (state : UserState)
    (phone message name now : String) :
    Option UserProfile × UserState × List String :=
  let cmd := pyStrip (pyLower message)
  if cmd = "reset" ∨ cmd = "restart" ∨ cmd = "start over" ∨
      cmd = "new profile" then
    let r := handle_new_user phone name now
    (some r.1, r.2.1, r.2.2)
  else if cmd = "help" ∨ cmd = "?" then
    (profile, state, [help_msg])
  else if cmd = "stats" then
    (profile, state, [stats_msg profile])
  else if cmd = "profile" then
    (profile, state, [profile_view_msg profile])
  else if state = UserState.new ∨ profile = none then
    let r := handle_new_user phone name now
    (some r.1, r.2.1, r.2.2)
  else
    match state, profile with
    | UserState.awaiting_goals, some p =>
      let r := handle_goals_response p message
      ((match r.profileWrite with | some q => some q | none => profile),
       r.stateWrite.getD state, r.messages)
    | UserState.awaiting_restrictions, some p =>
      let r := handle_restrictions_response p message
      ((match r.profileWrite with | some q => some q | none => profile),
       r.stateWrite.getD state, r.messages)
    | UserState.ready, _ =>
      (profile, state, [ready_text_prompt])
    | _, _ => (profile, state, [])

/-! ### Vision classifier adapter (source lines 202-294) -/

/-- One identified cart item, as a JSON object with optional keys
(`item.get(...)` in the formatter; `name` is accessed unconditionally). -/
structure CartItem where
  name : String
  category : Option String := none
  reason : Option String := none
  alternative : Option String := none
deriving DecidableEq, Repr

/-- The dictionary produced by the classifier call, with every key
optional (the source reads them with `.get`); the error indicator is the
presence of the `error` key, with the raw model text under `raw`. -/
structure CartAnalysis where
  error : Option String := none
  raw : Option String := none
  items_found : Option (List CartItem) := none
  health_score : Option Int := none
  encouragement : Option String := none
deriving DecidableEq, Repr

/-- The opening-brace character, written by code point. -/
def lbrace : Char := Char.ofNat 123

/-- The closing-brace character, written by code point. -/
def rbrace : Char := Char.ofNat 125

/-- The substring extraction of `analyze_cart_with_claude` (source lines
287-290): `start = content.find("{")`, `end = content.rfind("}") + 1`,
`json_str = content[start:end]`. -/
def extract_json_chars (content : List Char) : List Char :=
  let start := pyFindChar content lbrace
  let stop := pyRfindChar content rbrace + 1
  pySliceChars content start stop

/-- Response handling of `analyze_cart_with_claude` (source lines
278-294): on a non-200 status the function returns `None`; otherwise the
text between the first opening brace and the last closing brace
(inclusive) is passed to `json.loads` (abstracted as `loads`); a parse
failure yields the error dictionary carrying the raw text. -/
def analyze_cart_response (loads : String → Option CartAnalysis)
    (status : Nat) (content : String) : Option CartAnalysis :=
  if status ≠ 200 then none
  else
    let json_str := String.mk (extract_json_chars content.toList)
    match loads json_str with
    | some parsed => some parsed
    | none =>
      some { error := some "Could not analyze cart", raw := some content }

/-! ### Analysis formatter (source lines 296-344) -/

/-- Fixed apology of `format_cart_analysis` (source line 300). -/
def apology_msg : String :=
  "🤔 I had trouble analyzing that image. Could you try taking another photo with better lighting? Make sure the items in your cart are clearly visible!"

/-- `analysis.get("items_found", [])` (source line 302). -/
def items_of (a : CartAnalysis) : List CartItem :=
  a.items_found.getD []

/-- `analysis.get("health_score", 5)` (source line 303). -/
def score_of (a : CartAnalysis) : Int :=
  a.health_score.getD 5

/-- `analysis.get("encouragement", "Keep making healthy choices!")`
(source line 304). -/
def encouragement_of (a : CartAnalysis) : String :=
  a.encouragement.getD "Keep making healthy choices!"

/-- Items whose `category` equals `"GOOD"` (source line 307). -/
def good_items_of (a : CartAnalysis) : List CartItem :=
  (items_of a).filter (fun i => i.category = some "GOOD")

/-- Items whose `category` equals `"OKAY"` (source line 308). -/
def okay_items_of (a : CartAnalysis) : List CartItem :=
  (items_of a).filter (fun i => i.category = some "OKAY")

/-- Items whose `category` equals `"RECONSIDER"` (source line 309). -/
def reconsider_items_of (a : CartAnalysis) : List CartItem :=
  (items_of a).filter (fun i => i.category = some "RECONSIDER")

/-- The star bar of the score line (source line 315):
`'⭐' * score` followed by `'☆' * (10 - score)`. -/
def score_bar (score : Int) : String :=
  pyRepeatChar '⭐' score ++ pyRepeatChar '☆' (10 - score)

/-- The full score line (source line 315). -/
def score_line (score : Int) : String :=
  "Health Score: " ++ score_bar score ++ " (" ++ toString score ++ "/10)"

/-- The lines appended for one RECONSIDER item (source lines 332-337):
the bold name, then the reason and the alternative, each only when the
corresponding value is present and truthy (non-empty). -/
def recon_item_lines (i : CartItem) : List String :=
  ("  • *" ++ i.name ++ "*") ::
    ((match i.reason with
      | some r => if r = "" then [] else ["    _" ++ r ++ "_"]
      | none => []) ++
     (match i.alternative with
      | some alt => if alt = "" then [] else ["    → Try: " ++ alt]
      | none => []))

/-- The `lines` list built by `format_cart_analysis` on the non-error
path (source lines 312-342), in the exact append order of the source. -/
def format_lines (a : CartAnalysis) : List String :=
  ["🛒 *Your Cart Health Report*",
   "━━━━━━━━━━━━━━━━━",
   score_line (score_of a),
   ""]
  ++ (if good_items_of a = [] then []
      else "✅ *GREAT CHOICES:*" ::
        ((good_items_of a).map (fun i => "  • " ++ i.name) ++ [""]))
  ++ (if okay_items_of a = [] then []
      else "👍 *OKAY IN MODERATION:*" ::
        ((okay_items_of a).map (fun i => "  • " ++ i.name) ++ [""]))
  ++ (if reconsider_items_of a = [] then []
      else "🔄 *CONSIDER SWAPPING:*" ::
        ((reconsider_items_of a).flatMap recon_item_lines ++ [""]))
  ++ ["💚 " ++ encouragement_of a,
      "",
      "_Send another photo anytime!_"]

/-- `format_cart_analysis` (source lines 296-344): the fixed apology when
the `error` key is present, otherwise the joined lines. -/
def format_cart_analysis (a : CartAnalysis) : String :=
  if a.error.isSome then apology_msg
  else String.intercalate "\n" (format_lines a)

/-- A concrete classification result used to evaluate the formatter:
score 8 and one item in each category. -/
def sample_analysis : CartAnalysis :=
  { items_found := some
      [{ name := "Apple", category := some "GOOD" },
       { name := "Rice", category := some "OKAY" },
       { name := "Chips", category := some "RECONSIDER",
         reason := some "Salty", alternative := some "Popcorn" }],
    health_score := some 8,
    encouragement := some "Nice work" }

/-! ### General helper lemmas -/

theorem str_toList_append (s t : String) :
    (s ++ t).toList = s.toList ++ t.toList := rfl

/-! ### C1 -/

/-- C1: the spec claims a profile is complete iff `healthGoals` is
non-empty and `restrictions` has been explicitly set, possibly to the
empty set, so that onboarding with goals `{Lose weight}` and restrictions
`{}` yields a complete profile.  The code disagrees: `is_profile_complete`
demands a NON-empty restriction list.  This theorem evaluates the code at
the failing input: onboarding with "2" and then "none" ends in the
`ready` state with `restrictions = []`, the completeness check on the
resulting profile returns `false`, and the next photo from that user is
bounced back to goal selection — contradicting the code's own flow,
which offered "reply \"none\" if no restrictions" and announced
"You're all set!". -/
theorem C1_complete_requires_nonempty_restrictions :
    (handle_goals_response { phone := "u" } "2").profileWrite =
      some { phone := "u", health_goals := ["Lose weight"] } ∧
    (handle_goals_response { phone := "u" } "2").stateWrite =
      some UserState.awaiting_restrictions ∧
    (handle_restrictions_response
        { phone := "u", health_goals := ["Lose weight"] } "none").profileWrite =
      some { phone := "u", health_goals := ["Lose weight"],
             restrictions := [] } ∧
    (handle_restrictions_response
        { phone := "u", health_goals := ["Lose weight"] } "none").stateWrite =
      some UserState.ready ∧
    is_profile_complete
      { phone := "u", health_goals := ["Lose weight"],
        restrictions := [] } = false ∧
    (handle_cart_photo
        (some { phone := "u", health_goals := ["Lose weight"] })).stateWrite =
      some UserState.awaiting_goals ∧
    (handle_cart_photo
        (some { phone := "u", health_goals := ["Lose weight"] })).ranAnalysis =
      false := by
  decide

/-! ### C2 -/

/-- C2 counterexample: the claim says selection parsing deduplicates
while preserving first-seen order, so that "2, 1, 2" at the goals step
yields exactly `["Lose weight", "Lower cholesterol"]` with no repeated
entry.  The code performs no deduplication: the very input "2, 1, 2"
yields a list with a repeated entry. -/
theorem C2_counterexample :
    parse_selection HEALTH_GOALS "2, 1, 2" =
      ["Lose weight", "Lower cholesterol", "Lose weight"] ∧
    parse_selection HEALTH_GOALS "2, 1, 2" ≠
      ["Lose weight", "Lower cholesterol"] ∧
    ¬ (parse_selection HEALTH_GOALS "2, 1, 2").Nodup := by
  decide

/-- C2 (amended): number-selection parsing — identical for the goals and
restrictions steps — splits on commas and whitespace, keeps only
all-digit tokens, maps each through the corresponding catalog, silently
drops unrecognized tokens, and preserves first-seen order INCLUDING
duplicates (no deduplication); the input "2, 1, 2" at the goals step
yields `["Lose weight", "Lower cholesterol", "Lose weight"]`.  The first
conjunct shows every output entry is a catalog label. -/
theorem C2_parse_selection_no_dedup :
    (∀ (catalog : List (String × String)) (message x : String),
      x ∈ parse_selection catalog message → ∃ n, (n, x) ∈ catalog) ∧
    parse_selection HEALTH_GOALS "2, 1, 2" =
      ["Lose weight", "Lower cholesterol", "Lose weight"] ∧
    parse_selection HEALTH_GOALS "2 1,2" =
      ["Lose weight", "Lower cholesterol", "Lose weight"] ∧
    parse_selection HEALTH_GOALS "9 foo 2x 1" = ["Lower cholesterol"] ∧
    parse_selection RESTRICTIONS "1, 8" = ["No salt", "No eggs"] := by
  refine ⟨?_, by decide, by decide, by decide, by decide⟩
  intro catalog message x hx
  unfold parse_selection at hx
  simp only [List.mem_filterMap] at hx
  obtain ⟨n, _, hlook⟩ := hx
  unfold catalogLookup at hlook
  cases hfind : catalog.find? (fun kv => kv.1 = n) with
  | none => rw [hfind] at hlook; simp at hlook
  | some kv =>
    rw [hfind] at hlook
    have hx2 : kv.2 = x := by simpa using hlook
    subst hx2
    exact ⟨kv.1, List.mem_of_find?_eq_some hfind⟩

/-- Witness for C2: instantiates the general conjunct at a concrete
message and output entry. -/
theorem C2_parse_selection_no_dedup_witness :
    ∃ n, (n, "Lose weight") ∈ HEALTH_GOALS :=
  C2_parse_selection_no_dedup.1 HEALTH_GOALS "2" "Lose weight" (by decide)

/-! ### C3 -/

/-- C3 counterexample: the claim says ANY inbound message from a user in
the `New` state transitions them to `AwaitingGoals` and creates a profile
with empty goals and restrictions.  The text "help" from a new user is
answered by the help intercept: no state transition and no profile is
created. -/
theorem C3_counterexample :
    (handle_text_message none UserState.new "u" "help" "N" "T").2.1 =
      UserState.new ∧
    (handle_text_message none UserState.new "u" "help" "N" "T").1 = none ∧
    UserState.new ≠ UserState.awaiting_goals := by
  decide

/-- C3 (amended): for a user in the `New` state, any inbound text whose
lower-cased trim is not one of the intercepted commands
`help`, `?`, `stats`, `profile` transitions the user to `AwaitingGoals`
and creates a profile with empty goals and empty restrictions (the reset
commands included, since they re-enter `handle_new_user`); an inbound
photo also forces the state to `AwaitingGoals` but creates NO profile. -/
theorem C3_new_user_transition (phone msg name now : String)
    (h1 : pyStrip (pyLower msg) ≠ "help")
    (h2 : pyStrip (pyLower msg) ≠ "?")
    (h3 : pyStrip (pyLower msg) ≠ "stats")
    (h4 : pyStrip (pyLower msg) ≠ "profile") :
    handle_text_message none UserState.new phone msg name now =
      (some { phone := phone, name := some name, created_at := now },
       UserState.awaiting_goals, [welcome_msg name]) ∧
    ({ phone := phone, name := some name, created_at := now } :
      UserProfile).health_goals = [] ∧
    ({ phone := phone, name := some name, created_at := now } :
      UserProfile).restrictions = [] ∧
    (photo_event none UserState.new).stateWrite =
      some UserState.awaiting_goals ∧
    (photo_event none UserState.new).profileWrite = none := by
  refine ⟨?_, rfl, rfl, rfl, rfl⟩
  unfold handle_text_message
  by_cases hr : pyStrip (pyLower msg) = "reset" ∨
      pyStrip (pyLower msg) = "restart" ∨
      pyStrip (pyLower msg) = "start over" ∨
      pyStrip (pyLower msg) = "new profile"
  · simp [hr, handle_new_user]
  · simp [hr, h1, h2, h3, h4, handle_new_user]

/-- Witness for C3: the plain greeting "hi" from a new user. -/
theorem C3_new_user_transition_witness :
    handle_text_message none UserState.new "u" "hi" "N" "T" =
      (some { phone := "u", name := some "N", created_at := "T" },
       UserState.awaiting_goals, [welcome_msg "N"]) :=
  (C3_new_user_transition "u" "hi" "N" "T"
    (by decide) (by decide) (by decide) (by decide)).1

/-! ### C4 -/

/-- C4 counterexample: the claim says a photo arriving while
`state ≠ Ready` (or the profile is absent/incomplete) is redirected to
goal selection with the state forced to `AwaitingGoals` and no cart
analysis.  The handler never consults the state: with a complete profile
and state `new` (≠ `ready`), the photo runs the analysis path, sends the
analyzing acknowledgment, and writes no state. -/
theorem C4_counterexample :
    (photo_event
        (some { phone := "u", health_goals := ["Lose weight"],
                restrictions := ["No salt"] }) UserState.new).ranAnalysis =
      true ∧
    (photo_event
        (some { phone := "u", health_goals := ["Lose weight"],
                restrictions := ["No salt"] }) UserState.new).stateWrite =
      none ∧
    (photo_event
        (some { phone := "u", health_goals := ["Lose weight"],
                restrictions := ["No salt"] }) UserState.new).messages =
      [analyzing_msg] ∧
    UserState.new ≠ UserState.ready := by
  decide

/-- C4 (amended): for every inbound photo received while the user's
profile is absent or incomplete, the handler sends the goal-selection
prompt, forces the state to `AwaitingGoals` regardless of the prior
state, and does not run cart analysis; the prior state is never consulted
(the condition is about the profile only). -/
theorem C4_photo_incomplete_redirect (profile : Option UserProfile)
    (st st' : UserState)
    (h : profile = none ∨
      ∃ p, profile = some p ∧ is_profile_complete p = false) :
    photo_event profile st =
      { stateWrite := some UserState.awaiting_goals,
        messages := [cart_photo_setup_prompt] } ∧
    photo_event profile st = photo_event profile st' := by
  refine ⟨?_, rfl⟩
  rcases h with rfl | ⟨p, rfl, hc⟩
  · rfl
  · simp [photo_event, handle_cart_photo, hc]

/-- Witness for C4: an absent profile, with two distinct prior states. -/
theorem C4_photo_incomplete_redirect_witness :
    photo_event none UserState.ready =
      { stateWrite := some UserState.awaiting_goals,
        messages := [cart_photo_setup_prompt] } :=
  (C4_photo_incomplete_redirect none UserState.ready UserState.new
    (Or.inl rfl)).1

/-! ### C5 -/

/-- C5: at the restrictions step, the input "none" (case-insensitive,
trimmed) and any input containing no recognized restriction code both set
the profile's restriction list to empty and both transition the user to
`Ready`. -/
theorem C5_restrictions_none_or_unrecognized (p : UserProfile)
    (msg : String)
    (h : pyStrip (pyLower msg) = "none" ∨
      parse_selection RESTRICTIONS msg = []) :
    (handle_restrictions_response p msg).profileWrite =
      some { p with restrictions := [] } ∧
    (handle_restrictions_response p msg).stateWrite =
      some UserState.ready := by
  unfold handle_restrictions_response
  rcases h with h | h
  · simp [h]
  · by_cases hn : pyStrip (pyLower msg) = "none" <;> simp [hn, h]

/-- Witness for C5: the literal (case-varied, padded) " NoNe ". -/
theorem C5_restrictions_none_witness :
    (handle_restrictions_response
        { phone := "u", health_goals := ["Lose weight"] }
        " NoNe ").profileWrite =
      some { phone := "u", health_goals := ["Lose weight"],
             restrictions := [] } ∧
    (handle_restrictions_response
        { phone := "u", health_goals := ["Lose weight"] }
        " NoNe ").stateWrite = some UserState.ready :=
  C5_restrictions_none_or_unrecognized
    { phone := "u", health_goals := ["Lose weight"] } " NoNe "
    (Or.inl (by decide))

/-! ### C9 -/

/-- C9: at the goals step, a message with no recognized goal code only
re-prompts: no profile write, no state write, so the user stays in
`AwaitingGoals` with the stored profile untouched. -/
theorem C9_goals_unrecognized_reprompt (p : UserProfile) (msg : String)
    (h : parse_selection HEALTH_GOALS msg = []) :
    handle_goals_response p msg =
      { profileWrite := none, stateWrite := none,
        messages := [goals_reprompt], ranAnalysis := false } := by
  simp [handle_goals_response, h]

/-- Witness for C9: a message with no digits at all. -/
theorem C9_goals_unrecognized_reprompt_witness :
    handle_goals_response { phone := "u" } "thanks!" =
      { profileWrite := none, stateWrite := none,
        messages := [goals_reprompt], ranAnalysis := false } :=
  C9_goals_unrecognized_reprompt { phone := "u" } "thanks!" (by decide)

/-! ### Lemmas about find / rfind / slice -/

theorem pyFindChar_first (c : Char) (pre rest : List Char)
    (h : c ∉ pre) :
    pyFindChar (pre ++ c :: rest) c = pre.length := by
  induction pre with
  | nil => simp [pyFindChar]
  | cons a pre ih =>
    have ha : a ≠ c := fun e => h (by simp [e])
    have hv := ih (fun hm => h (List.mem_cons_of_mem _ hm))
    simp only [List.cons_append, pyFindChar, if_neg ha, List.append_eq, hv]
    have hne : (pre.length : Int) ≠ -1 := by omega
    rw [if_neg hne]
    simp only [List.length_cons]
    push_cast
    omega

theorem pyRfindChar_last (c : Char) (pre post : List Char)
    (h : c ∉ post) :
    pyRfindChar (pre ++ c :: post) c = pre.length := by
  unfold pyRfindChar
  have hrev : (pre ++ c :: post).reverse =
      post.reverse ++ c :: pre.reverse := by
    simp [List.reverse_append]
  rw [hrev, pyFindChar_first c post.reverse pre.reverse (by simpa using h)]
  have hne : (post.reverse.length : Int) ≠ -1 := by omega
  rw [if_neg hne]
  simp [List.length_append]
  omega

theorem pySliceChars_of_nonneg (l : List Char) (a b : Nat)
    (ha : a ≤ l.length) (hb : b ≤ l.length) :
    pySliceChars l a b = (l.take b).drop a := by
  have h1 : ¬ ((a : Int) < 0) := by omega
  have h2 : ¬ ((b : Int) < 0) := by omega
  simp only [pySliceChars, if_neg h1, if_neg h2]
  have ha' : ((a : Int) ⊓ (l.length : Int)).toNat = a := by omega
  have hb' : ((b : Int) ⊓ (l.length : Int)).toNat = b := by omega
  rw [ha', hb']

/-- The first-brace / last-brace extraction, characterized: on a text of
the shape `pre ++ "THE-FIRST-LBRACE" ++ mid ++ "THE-LAST-RBRACE" ++ post`
(no opening brace in `pre`, no closing brace in `post`), exactly the
bracketed middle, braces included, is extracted. -/
theorem extract_json_chars_spec (pre mid post : List Char)
    (hpre : lbrace ∉ pre) (hpost : rbrace ∉ post) :
    extract_json_chars (pre ++ lbrace :: (mid ++ rbrace :: post)) =
      lbrace :: (mid ++ [rbrace]) := by
  unfold extract_json_chars
  have hfind :
      pyFindChar (pre ++ lbrace :: (mid ++ rbrace :: post)) lbrace =
        pre.length :=
    pyFindChar_first _ _ _ hpre
  have hassoc : pre ++ lbrace :: (mid ++ rbrace :: post) =
      (pre ++ lbrace :: mid) ++ rbrace :: post := by
    simp
  have hrfind :
      pyRfindChar (pre ++ lbrace :: (mid ++ rbrace :: post)) rbrace =
        (pre ++ lbrace :: mid).length := by
    rw [hassoc]
    exact pyRfindChar_last _ _ _ hpost
  rw [hfind, hrfind]
  have hcast : ((pre ++ lbrace :: mid).length : Int) + 1 =
      ((pre.length + (mid.length + 2) : Nat) : Int) := by
    simp only [List.length_append, List.length_cons]
    push_cast
    omega
  rw [hcast]
  rw [pySliceChars_of_nonneg _ _ _
    (by simp only [List.length_append, List.length_cons]; omega)
    (by simp only [List.length_append, List.length_cons]; omega)]
  rw [List.take_append (mid.length + 2)]
  have h2 : (lbrace :: (mid ++ rbrace :: post)).take (mid.length + 2) =
      lbrace :: (mid ++ [rbrace]) := by
    rw [show mid.length + 2 = (mid.length + 1) + 1 from by omega]
    rw [List.take_succ_cons]
    rw [List.take_append 1]
    simp
  rw [h2]
  exact List.drop_left pre _

/-! ### C6 -/

/-- C6 counterexample: the claim says that when the upstream call does
not succeed, the adapter returns an error indicator carrying the raw text
for diagnostics.  On a non-200 status the code returns `None` instead —
no error dictionary and no raw text. -/
theorem C6_counterexample :
    analyze_cart_response (fun _ => none) 500 "x" = none ∧
    analyze_cart_response (fun _ => none) 500 "x" ≠
      some { error := some "Could not analyze cart", raw := some "x" } := by
  decide

/-- C6 (amended): the classifier response parser locates the first
opening brace and the last closing brace and parses the substring between
them (inclusive), tolerating conversational text around the JSON; a PARSE
failure yields the error dictionary carrying the raw text, and no parse
exception escapes (the function is total); an UPSTREAM (non-200) failure
instead returns a null result carrying nothing. -/
theorem C6_response_parsing (loads : String → Option CartAnalysis)
    (status : Nat) (content : String) (j : CartAnalysis)
    (pre mid post : List Char)
    (hpre : lbrace ∉ pre) (hpost : rbrace ∉ post) :
    (status ≠ 200 → analyze_cart_response loads status content = none) ∧
    (status = 200 →
      loads (String.mk (extract_json_chars content.toList)) = none →
      analyze_cart_response loads status content =
        some { error := some "Could not analyze cart",
               raw := some content }) ∧
    (status = 200 →
      loads (String.mk (extract_json_chars content.toList)) = some j →
      analyze_cart_response loads status content = some j) ∧
    extract_json_chars (pre ++ lbrace :: (mid ++ rbrace :: post)) =
      lbrace :: (mid ++ [rbrace]) := by
  refine ⟨?_, ?_, ?_, extract_json_chars_spec pre mid post hpre hpost⟩
  · intro h
    simp [analyze_cart_response, h]
  · intro h hl
    have hl' : loads (String.mk (extract_json_chars content.data)) = none :=
      hl
    simp [analyze_cart_response, h, hl']
  · intro h hl
    have hl' : loads (String.mk (extract_json_chars content.data)) = some j :=
      hl
    simp [analyze_cart_response, h, hl']

/-- Witness for C6: a parse failure on status 200 carries the raw text;
the extraction isolates the braced middle of a concrete wrapped text. -/
theorem C6_response_parsing_witness :
    analyze_cart_response (fun _ => none) 200 "no braces here" =
      some { error := some "Could not analyze cart",
             raw := some "no braces here" } ∧
    extract_json_chars
        ("ab".toList ++ lbrace :: ("cd".toList ++ rbrace :: "ef".toList)) =
      lbrace :: ("cd".toList ++ [rbrace]) :=
  ⟨(C6_response_parsing (fun _ => none) 200 "no braces here" { }
      "ab".toList "cd".toList "ef".toList
      (by decide) (by decide)).2.1 rfl rfl,
   (C6_response_parsing (fun _ => none) 200 "no braces here" { }
      "ab".toList "cd".toList "ef".toList
      (by decide) (by decide)).2.2.2⟩

/-! ### C7 -/

/-- C7: on an error indicator (the `error` key present) the formatter
returns exactly the fixed apologetic message asking for a clearer photo,
which contains no category heading line, no filled glyph and no empty
glyph. -/
theorem C7_error_apology (a : CartAnalysis)
    (h : a.error.isSome = true) :
    format_cart_analysis a = apology_msg ∧
    (split_lines (format_cart_analysis a)).count "✅ *GREAT CHOICES:*" = 0 ∧
    (split_lines (format_cart_analysis a)).count
      "👍 *OKAY IN MODERATION:*" = 0 ∧
    (split_lines (format_cart_analysis a)).count
      "🔄 *CONSIDER SWAPPING:*" = 0 ∧
    countChar (format_cart_analysis a) '⭐' = 0 ∧
    countChar (format_cart_analysis a) '☆' = 0 := by
  have e : format_cart_analysis a = apology_msg := by
    simp [format_cart_analysis, h]
  rw [e]
  exact ⟨rfl, by decide, by decide, by decide, by decide, by decide⟩

/-- Witness for C7: the error dictionary produced by a parse failure. -/
theorem C7_error_apology_witness :
    format_cart_analysis
        { error := some "Could not analyze cart", raw := some "junk" } =
      apology_msg :=
  (C7_error_apology
    { error := some "Could not analyze cart", raw := some "junk" } rfl).1

/-! ### Formatter helper lemmas -/

theorem str_head_append (p : String) (c : Char) {rest : List Char}
    (hp : p.toList = c :: rest) (s : String) :
    (p ++ s).toList.head? = some c := by
  rw [str_toList_append, hp]
  rfl

theorem str_ne_of_head (s t : String)
    (h : s.toList.head? ≠ t.toList.head?) : s ≠ t :=
  fun e => h (by rw [e])

theorem recon_item_lines_head (i : CartItem) (x : String)
    (hx : x ∈ recon_item_lines i) : x.toList.head? = some ' ' := by
  unfold recon_item_lines at hx
  simp only [List.mem_cons, List.mem_append] at hx
  rcases hx with rfl | hx | hx
  · exact str_head_append "  • *" ' ' rfl _
  · cases hr : i.reason with
    | none => simp [hr] at hx
    | some r =>
      by_cases hre : r = ""
      · simp [hr, hre] at hx
      · simp [hr, hre] at hx
        subst hx
        exact str_head_append "    _" ' ' rfl _
  · cases hr : i.alternative with
    | none => simp [hr] at hx
    | some alt =>
      by_cases hre : alt = ""
      · simp [hr, hre] at hx
      · simp [hr, hre] at hx
        subst hx
        exact str_head_append "    → Try: " ' ' rfl _

theorem count_bullets_zero (H : String) (hH : H.toList.head? ≠ some ' ')
    (l : List CartItem) :
    (l.map (fun i => "  • " ++ i.name)).count H = 0 := by
  rw [List.count_eq_zero]
  intro hmem
  obtain ⟨i, _, heq⟩ := List.mem_map.mp hmem
  exact hH (heq ▸ str_head_append "  • " ' ' rfl i.name)

theorem count_recon_zero (H : String) (hH : H.toList.head? ≠ some ' ')
    (l : List CartItem) :
    (l.flatMap recon_item_lines).count H = 0 := by
  rw [List.count_eq_zero]
  intro hmem
  obtain ⟨i, _, hx⟩ := List.mem_flatMap.mp hmem
  exact hH (recon_item_lines_head i H hx)

theorem score_line_head (s : Int) :
    (score_line s).toList.head? = some 'H' := by
  unfold score_line
  exact str_head_append "Health Score: " 'H' rfl _

theorem count_good_heading (a : CartAnalysis) :
    (format_lines a).count "✅ *GREAT CHOICES:*" =
      if good_items_of a = [] then 0 else 1 := by
  have hH : ("✅ *GREAT CHOICES:*" : String).toList.head? ≠ some ' ' := by
    decide
  have hsl : score_line (score_of a) ≠ "✅ *GREAT CHOICES:*" :=
    str_ne_of_head _ _ (by rw [score_line_head]; decide)
  have henc : ("💚 " ++ encouragement_of a) ≠ "✅ *GREAT CHOICES:*" :=
    str_ne_of_head _ _ (by rw [str_head_append "💚 " '💚' rfl _]; decide)
  unfold format_lines
  by_cases hg : good_items_of a = [] <;>
    by_cases ho : okay_items_of a = [] <;>
      by_cases hr : reconsider_items_of a = [] <;>
        simp +decide [hg, ho, hr, List.count_append, List.count_cons,
          count_bullets_zero _ hH, count_recon_zero _ hH, hsl, henc]

theorem count_okay_heading (a : CartAnalysis) :
    (format_lines a).count "👍 *OKAY IN MODERATION:*" =
      if okay_items_of a = [] then 0 else 1 := by
  have hH : ("👍 *OKAY IN MODERATION:*" : String).toList.head? ≠ some ' ' := by
    decide
  have hsl : score_line (score_of a) ≠ "👍 *OKAY IN MODERATION:*" :=
    str_ne_of_head _ _ (by rw [score_line_head]; decide)
  have henc : ("💚 " ++ encouragement_of a) ≠ "👍 *OKAY IN MODERATION:*" :=
    str_ne_of_head _ _ (by rw [str_head_append "💚 " '💚' rfl _]; decide)
  unfold format_lines
  by_cases hg : good_items_of a = [] <;>
    by_cases ho : okay_items_of a = [] <;>
      by_cases hr : reconsider_items_of a = [] <;>
        simp +decide [hg, ho, hr, List.count_append, List.count_cons,
          count_bullets_zero _ hH, count_recon_zero _ hH, hsl, henc]

theorem count_recon_heading (a : CartAnalysis) :
    (format_lines a).count "🔄 *CONSIDER SWAPPING:*" =
      if reconsider_items_of a = [] then 0 else 1 := by
  have hH : ("🔄 *CONSIDER SWAPPING:*" : String).toList.head? ≠ some ' ' := by
    decide
  have hsl : score_line (score_of a) ≠ "🔄 *CONSIDER SWAPPING:*" :=
    str_ne_of_head _ _ (by rw [score_line_head]; decide)
  have henc : ("💚 " ++ encouragement_of a) ≠ "🔄 *CONSIDER SWAPPING:*" :=
    str_ne_of_head _ _ (by rw [str_head_append "💚 " '💚' rfl _]; decide)
  unfold format_lines
  by_cases hg : good_items_of a = [] <;>
    by_cases ho : okay_items_of a = [] <;>
      by_cases hr : reconsider_items_of a = [] <;>
        simp +decide [hg, ho, hr, List.count_append, List.count_cons,
          count_bullets_zero _ hH, count_recon_zero _ hH, hsl, henc]

theorem score_bar_toList (s : Int) :
    (score_bar s).toList =
      List.replicate s.toNat '⭐' ++
        List.replicate (10 - s).toNat '☆' := rfl

theorem score_bar_count_filled (s : Int) :
    (score_bar s).toList.count '⭐' = s.toNat := by
  rw [score_bar_toList]
  simp +decide [List.count_append, List.count_replicate]

theorem score_bar_count_empty (s : Int) :
    (score_bar s).toList.count '☆' = (10 - s).toNat := by
  rw [score_bar_toList]
  simp +decide [List.count_append, List.count_replicate]

theorem format_lines_getElem2 (a : CartAnalysis) :
    (format_lines a)[2]? = some (score_line (score_of a)) := rfl

theorem sublist_good_bullets (a : CartAnalysis) :
    ((good_items_of a).map (fun i => "  • " ++ i.name)).Sublist
      (format_lines a) := by
  unfold format_lines
  by_cases hg : good_items_of a = []
  · simp [hg]
  · rw [if_neg hg]
    have h1 : ((good_items_of a).map (fun i => "  • " ++ i.name)).Sublist
        ("✅ *GREAT CHOICES:*" ::
          ((good_items_of a).map (fun i => "  • " ++ i.name) ++ [""])) :=
      (List.sublist_append_left _ _).cons _
    exact h1.trans ((List.sublist_append_right _ _).trans
      ((List.sublist_append_left _ _).trans
        ((List.sublist_append_left _ _).trans
          (List.sublist_append_left _ _))))

theorem sublist_okay_bullets (a : CartAnalysis) :
    ((okay_items_of a).map (fun i => "  • " ++ i.name)).Sublist
      (format_lines a) := by
  unfold format_lines
  by_cases ho : okay_items_of a = []
  · simp [ho]
  · rw [if_neg ho]
    have h1 : ((okay_items_of a).map (fun i => "  • " ++ i.name)).Sublist
        ("👍 *OKAY IN MODERATION:*" ::
          ((okay_items_of a).map (fun i => "  • " ++ i.name) ++ [""])) :=
      (List.sublist_append_left _ _).cons _
    exact h1.trans ((List.sublist_append_right _ _).trans
      ((List.sublist_append_left _ _).trans
        (List.sublist_append_left _ _)))

theorem map_name_sublist_flatMap (l : List CartItem) :
    (l.map (fun i => "  • *" ++ i.name ++ "*")).Sublist
      (l.flatMap recon_item_lines) := by
  induction l with
  | nil => simp
  | cons i l ih =>
    rw [List.map_cons, List.flatMap_cons]
    simp only [recon_item_lines, List.cons_append]
    exact List.Sublist.cons₂ _ (ih.trans (List.sublist_append_right _ _))

theorem sublist_recon_names (a : CartAnalysis) :
    ((reconsider_items_of a).map
        (fun i => "  • *" ++ i.name ++ "*")).Sublist
      (format_lines a) := by
  unfold format_lines
  by_cases hr : reconsider_items_of a = []
  · simp [hr]
  · rw [if_neg hr]
    have h1 : ((reconsider_items_of a).map
        (fun i => "  • *" ++ i.name ++ "*")).Sublist
        ("🔄 *CONSIDER SWAPPING:*" ::
          ((reconsider_items_of a).flatMap recon_item_lines ++ [""])) :=
      ((map_name_sublist_flatMap _).trans
        (List.sublist_append_left _ _)).cons _
    exact h1.trans ((List.sublist_append_right _ _).trans
      (List.sublist_append_left _ _))

theorem mem_format_lines_of_mem_recon (a : CartAnalysis) (i : CartItem)
    (hi : i ∈ reconsider_items_of a) (x : String)
    (hx : x ∈ recon_item_lines i) : x ∈ format_lines a := by
  have hfm : x ∈ (reconsider_items_of a).flatMap recon_item_lines :=
    List.mem_flatMap.mpr ⟨i, hi, hx⟩
  have hR : reconsider_items_of a ≠ [] := List.ne_nil_of_mem hi
  unfold format_lines
  rw [if_neg hR]
  refine List.mem_append_left _ (List.mem_append_right _ ?_)
  exact List.mem_cons_of_mem _ (List.mem_append_left _ hfm)

theorem format_lines_ending (a : CartAnalysis) :
    ∃ front, format_lines a = front ++
      ["💚 " ++ encouragement_of a, "", "_Send another photo anytime!_"] := by
  unfold format_lines
  exact ⟨_, rfl⟩

/-! ### C8 -/

/-- C8: for every non-error analysis result, the formatter's output is
the joined line list; line 2 is the score line whose bar consists of
`score` filled glyphs followed by `10 - score` empty glyphs (score in
0..10); items are partitioned into the three category groups in original
order (the bullet lines of each group occur in order as a sublist);
each heading appears exactly once when its group is non-empty and never
when it is empty; RECONSIDER items render their reason and alternative
sub-lines when present (and non-empty, the source's truthiness test);
the output always ends with the encouragement line, a blank line and the
send-another-photo invitation; a missing `health_score` defaults to 5 and
a missing `encouragement` to the fixed generic message. -/
theorem C8_formatter_structure (a : CartAnalysis) (h : a.error = none)
    (h0 : 0 ≤ score_of a) (h10 : score_of a ≤ 10) :
    format_cart_analysis a = String.intercalate "\n" (format_lines a) ∧
    (format_lines a)[2]? = some (score_line (score_of a)) ∧
    (score_bar (score_of a)).toList =
      List.replicate (score_of a).toNat '⭐' ++
        List.replicate (10 - score_of a).toNat '☆' ∧
    ((score_bar (score_of a)).toList.count '⭐' : Int) = score_of a ∧
    ((score_bar (score_of a)).toList.count '☆' : Int) =
      10 - score_of a ∧
    (format_lines a).count "✅ *GREAT CHOICES:*" =
      (if good_items_of a = [] then 0 else 1) ∧
    (format_lines a).count "👍 *OKAY IN MODERATION:*" =
      (if okay_items_of a = [] then 0 else 1) ∧
    (format_lines a).count "🔄 *CONSIDER SWAPPING:*" =
      (if reconsider_items_of a = [] then 0 else 1) ∧
    ((good_items_of a).map (fun i => "  • " ++ i.name)).Sublist
      (format_lines a) ∧
    ((okay_items_of a).map (fun i => "  • " ++ i.name)).Sublist
      (format_lines a) ∧
    ((reconsider_items_of a).map
      (fun i => "  • *" ++ i.name ++ "*")).Sublist (format_lines a) ∧
    (∀ i ∈ reconsider_items_of a, ∀ r, i.reason = some r → r ≠ "" →
      ("    _" ++ r ++ "_") ∈ format_lines a) ∧
    (∀ i ∈ reconsider_items_of a, ∀ alt, i.alternative = some alt →
      alt ≠ "" → ("    → Try: " ++ alt) ∈ format_lines a) ∧
    (∃ front, format_lines a = front ++
      ["💚 " ++ encouragement_of a, "",
       "_Send another photo anytime!_"]) ∧
    (a.health_score = none → score_of a = 5) ∧
    (a.encouragement = none →
      encouragement_of a = "Keep making healthy choices!") := by
  refine ⟨by simp [format_cart_analysis, h],
    format_lines_getElem2 a,
    score_bar_toList _,
    by rw [score_bar_count_filled]; omega,
    by rw [score_bar_count_empty]; omega,
    count_good_heading a, count_okay_heading a, count_recon_heading a,
    sublist_good_bullets a, sublist_okay_bullets a, sublist_recon_names a,
    ?_, ?_, format_lines_ending a,
    fun hn => by simp [score_of, hn],
    fun hn => by simp [encouragement_of, hn]⟩
  · intro i hi r hr hne
    apply mem_format_lines_of_mem_recon a i hi
    unfold recon_item_lines
    simp [hr, hne]
  · intro i hi alt hr hne
    apply mem_format_lines_of_mem_recon a i hi
    unfold recon_item_lines
    simp [hr, hne]

/-- Witness for C8: the sample result with score 8 and one item per
category — the good heading appears exactly once and the bar holds
exactly 8 filled glyphs. -/
theorem C8_formatter_structure_witness :
    (format_lines sample_analysis)[2]? = some (score_line 8) ∧
    (format_lines sample_analysis).count "✅ *GREAT CHOICES:*" = 1 ∧
    ((score_bar 8).toList.count '⭐' : Int) = 8 :=
  ⟨(C8_formatter_structure sample_analysis rfl
      (by decide) (by decide)).2.1,
   (C8_formatter_structure sample_analysis rfl
      (by decide) (by decide)).2.2.2.2.2.1,
   (C8_formatter_structure sample_analysis rfl
      (by decide) (by decide)).2.2.2.1⟩

/-! ### C10 -/

/-- C10: the formatter neither validates nor clamps the health score:
the bar renders exactly `max(score, 0)` filled glyphs followed by
`max(10 - score, 0)` empty glyphs for ANY integer score, without failing
(the rendering function is total); above 10 there are more than 10 filled
glyphs and no empty glyph; at 0 or below there is no filled glyph; the
bar totals exactly 10 glyphs iff the score lies in 0..10. -/
theorem C10_score_bar_unclamped (s : Int) (a : CartAnalysis)
    (h : a.error = none) :
    (score_bar s).toList.count '⭐' = s.toNat ∧
    (score_bar s).toList.count '☆' = (10 - s).toNat ∧
    (score_bar s).toList =
      List.replicate s.toNat '⭐' ++
        List.replicate (10 - s).toNat '☆' ∧
    ((score_bar s).toList.count '⭐' +
        (score_bar s).toList.count '☆' = 10 ↔ 0 ≤ s ∧ s ≤ 10) ∧
    (10 < s → (score_bar s).toList.count '☆' = 0 ∧
      10 < (score_bar s).toList.count '⭐') ∧
    (s ≤ 0 → (score_bar s).toList.count '⭐' = 0) ∧
    (format_lines a)[2]? = some (score_line (score_of a)) ∧
    format_cart_analysis a = String.intercalate "\n" (format_lines a) := by
  refine ⟨score_bar_count_filled s, score_bar_count_empty s,
    score_bar_toList s, ?_, ?_, ?_, format_lines_getElem2 a,
    by simp [format_cart_analysis, h]⟩
  · rw [score_bar_count_filled, score_bar_count_empty]
    omega
  · intro hs
    rw [score_bar_count_filled, score_bar_count_empty]
    exact ⟨by omega, by omega⟩
  · intro hs
    rw [score_bar_count_filled]
    omega

/-- Witness for C10: score 15 renders 15 filled and 0 empty glyphs. -/
theorem C10_score_bar_unclamped_witness :
    (score_bar 15).toList.count '⭐' = 15 ∧
    (score_bar 15).toList.count '☆' = 0 ∧
    (format_lines sample_analysis)[2]? = some (score_line 8) :=
  ⟨(C10_score_bar_unclamped 15 sample_analysis rfl).1,
   (C10_score_bar_unclamped 15 sample_analysis rfl).2.1,
   (C10_score_bar_unclamped 15 sample_analysis rfl).2.2.2.2.2.2.1⟩
